import Mathlib

/-!
A verification development for `scripts/ingest_crypto.py`: a shallow
embedding of its configuration handling, Snowflake authentication
selection (`get_snowflake_conn`), CoinGecko fetch with tenacity retry
(`fetch_crypto_data`), the Snowflake load (`load_to_snowflake`) and the
`__main__` driver, together with theorems settling the specification's
claims about them.

Modelling conventions:
* A market record is identified with its JSON serialization
  (`json.dumps record`); the script never inspects record fields.
* External effects are explicit parameters: the file system and the PEM
  decoding of the cryptography library live in `Sys`; whether each
  Snowflake round-trip raises lives in `Warehouse`; the HTTP outcome of
  the k-th fetch attempt is `env k`.
* Every outward call the script issues is recorded in an event trace.
* Times are naturals ("time units").  tenacity's
  `wait_exponential(multiplier=1, min=2, max=10)` formula
  `max(max(0, min), min(multiplier * 2 ** (attempt_number - 1), max))`
  is transcribed literally, and tenacity's default retry predicate
  `retry_if_exception_type(Exception)` (retry on every exception raised
  by the wrapped body) is what the retry loop implements.
-/

/-- A market record, identified with its JSON text: the script treats
records as opaque JSON objects and `json.dumps` recovers this text. -/
structure MarketRecord where
  json : String
deriving DecidableEq

/-- `json.dumps record` in the model. -/
def dumps (r : MarketRecord) : String := r.json

/-- Python truthiness of an optional environment string: `None` (unset)
and `""` are falsy.  Used for `if KEY_PATH and ...`, `elif PASSWORD:`
and `if API_KEY:`. -/
def truthy : Option String → Bool
  | none => false
  | some s => s != ""

/-- The module-level configuration read from the environment
(`os.getenv`); `none` models an unset variable.  For the variables that
have a default in the script the default is already applied, so the
field is a plain string. -/
structure Config where
  keyPath : Option String
  password : Option String
  user : String
  account : String
  warehouse : String
  database : String
  schema : String
  table : String
  apiKey : Option String
  apiUrl : String
  apiLimit : String

/-- Ambient system facilities the script uses: `os.path.exists`,
reading a file's bytes, and the cryptography library's PEM →
unencrypted PKCS8-DER transformation (`serialization.load_pem_private_key`
followed by `private_bytes(Encoding.DER, PrivateFormat.PKCS8,
NoEncryption())`), kept abstract as a function on the file contents. -/
structure Sys where
  pathExists : String → Bool
  readFile : String → String
  pemToPkcs8Der : String → String

/-- Outcomes of the Snowflake round-trips: whether
`snowflake.connector.connect`, the CREATE TABLE `execute`, the
`executemany` insert and the `commit` succeed or raise. -/
structure Warehouse where
  connectOk : Bool
  createOk : Bool
  insertOk : Bool
  commitOk : Bool

/-- The authentication material handed to `snowflake.connector.connect`:
either the decoded private key bytes (`private_key=pkb`) or the
plaintext password (`password=PASSWORD`). -/
inductive Auth
  | keyPair (privateKey : String)
  | password (pw : String)
deriving DecidableEq

/-- The keyword arguments of `snowflake.connector.connect`. -/
structure ConnectParams where
  user : String
  account : String
  auth : Auth
  warehouse : String
  database : String
  schema : String
deriving DecidableEq

/-- The single GET request `fetch_crypto_data` issues per attempt:
URL, the fixed query parameters, the headers and the timeout. -/
structure Request where
  url : String
  vs_currency : String
  order : String
  per_page : String
  page : Nat
  sparkline : String
  headers : List (String × String)
  timeout : Nat
deriving DecidableEq

/-- One outward-visible action of the script, in program order. -/
inductive Event
  | fileRead (path : String)
  | httpGet (req : Request)
  | sleep (t : Nat)
  | sfConnect (params : ConnectParams)
  | sqlExecute (sql : String)
  | sqlExecuteMany (sql : String) (rows : List String)
  | commit
  | cursorClose
  | connClose
  | logError (msg : String)
deriving DecidableEq

def Event.isHttpGet : Event → Bool
  | .httpGet _ => true
  | _ => false

def Event.isSfConnect : Event → Bool
  | .sfConnect _ => true
  | _ => false

def Event.isExecute : Event → Bool
  | .sqlExecute _ => true
  | _ => false

def Event.isExecuteMany : Event → Bool
  | .sqlExecuteMany _ _ => true
  | _ => false

def Event.isCommit : Event → Bool
  | .commit => true
  | _ => false

def Event.isCursorClose : Event → Bool
  | .cursorClose => true
  | _ => false

def Event.isConnClose : Event → Bool
  | .connClose => true
  | _ => false

def Event.isLogError : Event → Bool
  | .logError _ => true
  | _ => false

/-- The message of the `ValueError` raised when neither credential mode
is available. -/
def authNoneMsg : String := "No valid authentication found! Check .env or GitHub Secrets."

/-- Stand-in message for an exception raised by
`snowflake.connector.connect` itself (its text is the connector's). -/
def connectFailMsg : String := "snowflake connect raised"

/-- Stand-in messages for exceptions raised by the warehouse calls
inside the `try` block (their texts are the connector's). -/
def createFailMsg : String := "create table raised"

def insertFailMsg : String := "insert raised"

def commitFailMsg : String := "commit raised"

/-- The `connect` keyword arguments the script passes besides the
authentication material. -/
def connectParams (cfg : Config) (a : Auth) : ConnectParams :=
  { user := cfg.user, account := cfg.account, auth := a,
    warehouse := cfg.warehouse, database := cfg.database, schema := cfg.schema }

/-- `get_snowflake_conn()`: try key-pair authentication first
(`if KEY_PATH and os.path.exists(KEY_PATH)`), else password
(`elif PASSWORD:`), else raise.  The first branch reads the key file and
decodes it PEM → PKCS8-DER; both connecting branches issue the
`snowflake.connector.connect` call (an `sfConnect` event), which
succeeds iff `wh.connectOk`. -/
def get_snowflake_conn (sys : Sys) (wh : Warehouse) (cfg : Config) :
    Except String ConnectParams × List Event :=
  if truthy cfg.keyPath && sys.pathExists (Option.getD cfg.keyPath ("")) then
    ((if wh.connectOk then
        Except.ok (connectParams cfg
          (Auth.keyPair (sys.pemToPkcs8Der (sys.readFile (Option.getD cfg.keyPath (""))))))
      else Except.error connectFailMsg),
     [Event.fileRead (Option.getD cfg.keyPath ("")),
      Event.sfConnect (connectParams cfg
        (Auth.keyPair (sys.pemToPkcs8Der (sys.readFile (Option.getD cfg.keyPath (""))))))])
  else if truthy cfg.password then
    ((if wh.connectOk then
        Except.ok (connectParams cfg (Auth.password (Option.getD cfg.password (""))))
      else Except.error connectFailMsg),
     [Event.sfConnect (connectParams cfg (Auth.password (Option.getD cfg.password (""))))])
  else
    (Except.error authNoneMsg, [])

/-- What a single `requests.get` comes back with: a timeout of the
10-unit bound, some other request exception, or a response with a
status code and a decoded record list. -/
inductive HttpOutcome
  | timeout
  | netError
  | response (status : Nat) (body : List MarketRecord)
deriving DecidableEq

/-- The exception one fetch attempt can raise. -/
inductive FetchError
  | timedOut
  | network
  | httpStatus (code : Nat)
  | emptyData
deriving DecidableEq

def FetchError.message : FetchError → String
  | .timedOut => "request timed out"
  | .network => "request raised"
  | .httpStatus c => "HTTP error " ++ toString c
  | .emptyData => "API returned 0 records!"

/-- `requests.Response.raise_for_status()`: raises exactly for the 4xx
and 5xx status codes. -/
def raiseForStatus (status : Nat) : Bool :=
  decide (400 ≤ status) && decide (status < 600)

/-- The GET request the body of `fetch_crypto_data` builds: the fixed
query parameters, the `User-Agent` header, the API-key header exactly
when `API_KEY` is truthy, and `timeout=10`. -/
def fetchRequest (cfg : Config) : Request :=
  { url := cfg.apiUrl
    vs_currency := "usd"
    order := "market_cap_desc"
    per_page := cfg.apiLimit
    page := 1
    sparkline := "false"
    headers := ("User-Agent", "Mozilla/5.0") ::
      (if truthy cfg.apiKey then [("x-cg-demo-api-key", Option.getD cfg.apiKey (""))] else [])
    timeout := 10 }

/-- One attempt of the body of `fetch_crypto_data` on HTTP outcome `o`:
a request exception propagates; otherwise `raise_for_status()`, then the
`if not data: raise ValueError("API returned 0 records!")` check, then
the decoded list is returned. -/
def fetch_once (cfg : Config) (o : HttpOutcome) : Except FetchError (List MarketRecord) :=
  match o with
  | .timeout => Except.error FetchError.timedOut
  | .netError => Except.error FetchError.network
  | .response status body =>
    if raiseForStatus status then Except.error (FetchError.httpStatus status)
    else if body.isEmpty then Except.error FetchError.emptyData
    else Except.ok body

/-- tenacity `wait_exponential`:
`max(max(0, min), min(multiplier * 2 ** (attempt_number - 1), max))`. -/
def waitExponential (multiplier minW maxW : Nat) (attemptNumber : Nat) : Nat :=
  max (max 0 minW) (min (multiplier * 2 ^ (attemptNumber - 1)) maxW)

/-- The observable outcome of the decorated `fetch_crypto_data()` call:
its result (the last attempt's exception when every allowed attempt
failed -- tenacity re-raises it inside a `RetryError`, which the model
does not wrap), how many attempts ran, the sleeps between consecutive
attempts, and the emitted events. -/
structure FetchTrace where
  result : Except FetchError (List MarketRecord)
  attempts : Nat
  waits : List Nat
  events : List Event

/-- tenacity's retry loop with `stop_after_attempt` and the default
retry predicate (retry on every `Exception` the body raises).  `n` is
the number of retries the stop condition still allows after the current
attempt, `k` the 1-based number of the current attempt, and `env k` the
HTTP outcome attempt `k` observes.  After a failed attempt `k` that is
not the last allowed one, the loop sleeps
`waitExponential 1 2 10 k` (tenacity computes the wait from the number
of the attempt that just failed). -/
def retryLoop (cfg : Config) (env : Nat → HttpOutcome) : Nat → Nat → FetchTrace
  | 0, k =>
    { result := fetch_once cfg (env k), attempts := 1, waits := [],
      events := [Event.httpGet (fetchRequest cfg)] }
  | n + 1, k =>
    match fetch_once cfg (env k) with
    | Except.ok v =>
      { result := Except.ok v, attempts := 1, waits := [],
        events := [Event.httpGet (fetchRequest cfg)] }
    | Except.error _ =>
      { result := (retryLoop cfg env n (k + 1)).result,
        attempts := (retryLoop cfg env n (k + 1)).attempts + 1,
        waits := waitExponential 1 2 10 k :: (retryLoop cfg env n (k + 1)).waits,
        events := Event.httpGet (fetchRequest cfg) ::
          Event.sleep (waitExponential 1 2 10 k) :: (retryLoop cfg env n (k + 1)).events }

/-- `@retry(stop=stop_after_attempt(5), wait=wait_exponential(multiplier=1, min=2, max=10))`
applied to the fetch body: at most 5 attempts total, i.e. 4 retries
after the first attempt. -/
def fetch_crypto_data (cfg : Config) (env : Nat → HttpOutcome) : FetchTrace :=
  retryLoop cfg env 4 1

/-- The `CREATE TABLE IF NOT EXISTS {SCHEMA}.{TABLE} (...)` statement
(whitespace normalized to single spaces). -/
def createTableSql (cfg : Config) : String :=
  "CREATE TABLE IF NOT EXISTS " ++ cfg.schema ++ "." ++ cfg.table ++
    " (record_id VARCHAR DEFAULT UUID_STRING(), ingested_at TIMESTAMP_NTZ DEFAULT CURRENT_TIMESTAMP(), json_data VARIANT)"

/-- The `INSERT INTO {SCHEMA}.{TABLE} (json_data) SELECT PARSE_JSON($1)
FROM VALUES (%s)` statement (whitespace normalized). -/
def insertSql (cfg : Config) : String :=
  "INSERT INTO " ++ cfg.schema ++ "." ++ cfg.table ++
    " (json_data) SELECT PARSE_JSON($1) FROM VALUES (%s)"

/-- `load_to_snowflake(data)`: open the connection (any exception there
propagates with nothing to clean up, since the `try` starts after
`conn.cursor()`); then inside `try`: the CREATE TABLE `execute`, the
`executemany` over `[(json.dumps(record),) for record in data]`, and
`conn.commit()`; the `finally` block closes the cursor and the
connection on every path out of the `try`.  An event is recorded for
each call that is issued, whether or not it raises. -/
def load_to_snowflake (sys : Sys) (wh : Warehouse) (cfg : Config)
    (data : List MarketRecord) : Except String Unit × List Event :=
  match (get_snowflake_conn sys wh cfg).1 with
  | Except.error e => (Except.error e, (get_snowflake_conn sys wh cfg).2)
  | Except.ok _ =>
    let evs := (get_snowflake_conn sys wh cfg).2
    if wh.createOk then
      if wh.insertOk then
        if wh.commitOk then
          (Except.ok (),
           evs ++ [Event.sqlExecute (createTableSql cfg),
             Event.sqlExecuteMany (insertSql cfg) (data.map dumps),
             Event.commit, Event.cursorClose, Event.connClose])
        else
          (Except.error commitFailMsg,
           evs ++ [Event.sqlExecute (createTableSql cfg),
             Event.sqlExecuteMany (insertSql cfg) (data.map dumps),
             Event.commit, Event.cursorClose, Event.connClose])
      else
        (Except.error insertFailMsg,
         evs ++ [Event.sqlExecute (createTableSql cfg),
           Event.sqlExecuteMany (insertSql cfg) (data.map dumps),
           Event.cursorClose, Event.connClose])
    else
      (Except.error createFailMsg,
       evs ++ [Event.sqlExecute (createTableSql cfg),
         Event.cursorClose, Event.connClose])

/-- The `__main__` block: `fetch_crypto_data()` then
`load_to_snowflake(market_data)`; any exception is logged as
`"Pipeline Failed: ..."` and turned into `exit(1)`; otherwise the
process ends with exit code 0.  Returns (exit code, event trace). -/
def main_run (sys : Sys) (wh : Warehouse) (cfg : Config) (env : Nat → HttpOutcome) :
    Nat × List Event :=
  match (fetch_crypto_data cfg env).result with
  | Except.error e =>
    (1, (fetch_crypto_data cfg env).events ++
      [Event.logError ("Pipeline Failed: " ++ e.message)])
  | Except.ok data =>
    match load_to_snowflake sys wh cfg data with
    | (Except.ok _, evs) => (0, (fetch_crypto_data cfg env).events ++ evs)
    | (Except.error e, evs) =>
      (1, (fetch_crypto_data cfg env).events ++ evs ++
        [Event.logError ("Pipeline Failed: " ++ e)])

/-- All rows handed to `executemany` inserts in a trace, in order. -/
def insertedRows : List Event → List String
  | [] => []
  | Event.sqlExecuteMany _ rows :: es => rows ++ insertedRows es
  | _ :: es => insertedRows es

/-- Two concrete records for witnesses (a record is its JSON text). -/
def ra : MarketRecord := ⟨"record-alpha"⟩

def rb : MarketRecord := ⟨"record-beta"⟩

/-- A concrete password-authenticated configuration. -/
def cfg0 : Config :=
  { keyPath := none, password := some ("pw"), user := "u", account := "acc",
    warehouse := "COMPUTE_WH", database := "FINANCE_LAKE", schema := "RAW",
    table := "MARKET_DATA", apiKey := none,
    apiUrl := "https://api.coingecko.com/api/v3/coins/markets", apiLimit := "10" }

/-- `cfg0` with both credential modes absent. -/
def cfgNoCreds : Config := { cfg0 with password := none }

/-- A file system with no key file; PEM decoding is irrelevant here. -/
def sys0 : Sys :=
  { pathExists := fun _ => false, readFile := fun _ => "",
    pemToPkcs8Der := fun s => s }

/-- A warehouse on which every call succeeds. -/
def wh0 : Warehouse :=
  { connectOk := true, createOk := true, insertOk := true, commitOk := true }

/-- A warehouse on which exactly the `executemany` insert raises. -/
def whInsertFail : Warehouse := { wh0 with insertOk := false }

/-- The connect parameters `cfg0` resolves to. -/
def p0 : ConnectParams := connectParams cfg0 (Auth.password ("pw"))

/-- HTTP 200 with an empty record list on attempt 1, then 200 with one
record. -/
def envEmptyThenOk : Nat → HttpOutcome := fun k =>
  if k = 1 then HttpOutcome.response 200 [] else HttpOutcome.response 200 [ra]

/-- HTTP 500 on attempts 1 and 2, then 200 with two records. -/
def env500x2 : Nat → HttpOutcome := fun k =>
  if k < 3 then HttpOutcome.response 500 [] else HttpOutcome.response 200 [ra, rb]

/-- Every attempt gets HTTP 200 with one record. -/
def envOk : Nat → HttpOutcome := fun _ => HttpOutcome.response 200 [ra]

/-! ## Helper lemmas -/

/-- A successful attempt never yields an empty record list: the
`if not data: raise` guard precedes the `return data`. -/
theorem fetch_once_ok_ne_nil (cfg : Config) (o : HttpOutcome) (l : List MarketRecord)
    (h : fetch_once cfg o = Except.ok l) : l ≠ [] := by
  cases o with
  | timeout => simp [fetch_once] at h
  | netError => simp [fetch_once] at h
  | response status body =>
    by_cases hs : raiseForStatus status
    · simp [fetch_once, hs] at h
    · by_cases hb : body.isEmpty
      · simp [fetch_once, hs, hb] at h
      · simp [fetch_once, hs, hb] at h
        subst h
        simpa using hb

theorem retryLoop_zero (cfg : Config) (env : Nat → HttpOutcome) (k : Nat) :
    retryLoop cfg env 0 k =
      { result := fetch_once cfg (env k), attempts := 1, waits := [],
        events := [Event.httpGet (fetchRequest cfg)] } := rfl

theorem retryLoop_succ_ok (cfg : Config) (env : Nat → HttpOutcome) (n k : Nat)
    (v : List MarketRecord) (h : fetch_once cfg (env k) = Except.ok v) :
    retryLoop cfg env (n + 1) k =
      { result := Except.ok v, attempts := 1, waits := [],
        events := [Event.httpGet (fetchRequest cfg)] } := by
  simp only [retryLoop, h]

theorem retryLoop_succ_err (cfg : Config) (env : Nat → HttpOutcome) (n k : Nat)
    (e : FetchError) (h : fetch_once cfg (env k) = Except.error e) :
    retryLoop cfg env (n + 1) k =
      { result := (retryLoop cfg env n (k + 1)).result,
        attempts := (retryLoop cfg env n (k + 1)).attempts + 1,
        waits := waitExponential 1 2 10 k :: (retryLoop cfg env n (k + 1)).waits,
        events := Event.httpGet (fetchRequest cfg) ::
          Event.sleep (waitExponential 1 2 10 k) :: (retryLoop cfg env n (k + 1)).events } := by
  simp only [retryLoop, h]

/-- Structural facts about the retry loop, by induction on the number of
retries still allowed: at least one and at most `n + 1` attempts run,
the waits are exactly `waitExponential 1 2 10` of the attempt numbers
`k, k+1, ...` of the failed attempts, every attempt emits exactly one
GET of the canonical request and nothing else but sleeps, and a
successful result is never the empty list. -/
theorem retryLoop_master (cfg : Config) (env : Nat → HttpOutcome) :
    ∀ n k,
      1 ≤ (retryLoop cfg env n k).attempts ∧
      (retryLoop cfg env n k).attempts ≤ n + 1 ∧
      (retryLoop cfg env n k).waits =
        (List.range ((retryLoop cfg env n k).attempts - 1)).map
          (fun i => waitExponential 1 2 10 (k + i)) ∧
      (retryLoop cfg env n k).events.countP Event.isHttpGet =
        (retryLoop cfg env n k).attempts ∧
      (∀ e ∈ (retryLoop cfg env n k).events,
        Event.isHttpGet e = true → e = Event.httpGet (fetchRequest cfg)) ∧
      (∀ e ∈ (retryLoop cfg env n k).events, Event.isSfConnect e = false) ∧
      (∀ l, (retryLoop cfg env n k).result = Except.ok l → l ≠ []) := by
  intro n
  induction n with
  | zero =>
    intro k
    rw [retryLoop_zero]
    dsimp only
    refine ⟨le_refl 1, by omega, by simp, by simp [List.countP_cons, Event.isHttpGet], ?_, ?_, ?_⟩
    · intro e he _
      simpa using he
    · intro e he
      have : e = Event.httpGet (fetchRequest cfg) := by simpa using he
      subst this
      rfl
    · intro l hl
      exact fetch_once_ok_ne_nil cfg (env k) l hl
  | succ n ih =>
    intro k
    cases h : fetch_once cfg (env k) with
    | ok v =>
      rw [retryLoop_succ_ok cfg env n k v h]
      dsimp only
      refine ⟨le_refl 1, by omega, by simp, by simp [List.countP_cons, Event.isHttpGet], ?_, ?_, ?_⟩
      · intro e he _
        simpa using he
      · intro e he
        have : e = Event.httpGet (fetchRequest cfg) := by simpa using he
        subst this
        rfl
      · intro l hl
        have : v = l := by simpa using hl
        subst this
        exact fetch_once_ok_ne_nil cfg (env k) v h
    | error e =>
      rw [retryLoop_succ_err cfg env n k e h]
      dsimp only
      obtain ⟨h1, h2, h3, h4, h5, h6, h7⟩ := ih (k + 1)
      obtain ⟨m, hm⟩ : ∃ m, (retryLoop cfg env n (k + 1)).attempts = m + 1 :=
        ⟨(retryLoop cfg env n (k + 1)).attempts - 1, by omega⟩
      refine ⟨by omega, by omega, ?_, ?_, ?_, ?_, ?_⟩
      · rw [h3, hm]
        rw [show m + 1 + 1 - 1 = m + 1 from rfl, List.range_succ_eq_map]
        simp only [List.map_cons, List.map_map, Nat.add_zero]
        congr 1
        · rw [show m + 1 - 1 = m from rfl]
          apply List.map_congr_left
          intro i _
          simp only [Function.comp]
          congr 1
          omega
      · simp only [List.countP_cons, h4]
        simp [Event.isHttpGet]
      · intro ev hev hget
        simp only [List.mem_cons] at hev
        rcases hev with rfl | rfl | hev
        · rfl
        · simp [Event.isHttpGet] at hget
        · exact h5 ev hev hget
      · intro ev hev
        simp only [List.mem_cons] at hev
        rcases hev with rfl | rfl | hev
        · rfl
        · rfl
        · exact h6 ev hev
      · intro l hl
        exact h7 l hl

/-- `waitExponential 1 2 10` is monotone in the attempt number. -/
theorem waitExponential_mono (a b : Nat) (h : a ≤ b) :
    waitExponential 1 2 10 a ≤ waitExponential 1 2 10 b := by
  unfold waitExponential
  apply max_le_max (le_refl _)
  apply min_le_min _ (le_refl _)
  simp only [one_mul]
  exact Nat.pow_le_pow_right (by omega) (by omega)

/-- `waitExponential 1 2 10` never exceeds the cap 10. -/
theorem waitExponential_le_ten (a : Nat) : waitExponential 1 2 10 a ≤ 10 := by
  unfold waitExponential
  have h1 : min (1 * 2 ^ (a - 1)) 10 ≤ 10 := Nat.min_le_right _ _
  exact max_le (by omega) h1

/-- Mapping a step-monotone function over `List.range` yields a
`≤`-chain. -/
theorem chain'_le_map_range (f : Nat → Nat) (hf : ∀ i, f i ≤ f (i + 1)) (m : Nat) :
    List.Chain' (fun a b => a ≤ b) ((List.range m).map f) := by
  rw [List.chain'_map]
  cases m with
  | zero => simp
  | succ m' =>
    rw [List.chain'_range_succ]
    intro i _
    exact hf i

/-- The trace of `get_snowflake_conn` is one of three concrete shapes. -/
theorem conn_events_cases (sys : Sys) (wh : Warehouse) (cfg : Config) :
    (get_snowflake_conn sys wh cfg).2 = [] ∨
    (∃ pr, (get_snowflake_conn sys wh cfg).2 = [Event.sfConnect pr]) ∨
    (∃ path pr, (get_snowflake_conn sys wh cfg).2 =
      [Event.fileRead path, Event.sfConnect pr]) := by
  unfold get_snowflake_conn
  by_cases h1 : (truthy cfg.keyPath && sys.pathExists (Option.getD cfg.keyPath (""))) = true
  · rw [if_pos h1]
    exact Or.inr (Or.inr ⟨_, _, rfl⟩)
  · rw [if_neg h1]
    by_cases h2 : truthy cfg.password = true
    · rw [if_pos h2]
      exact Or.inr (Or.inl ⟨_, rfl⟩)
    · rw [if_neg h2]
      exact Or.inl rfl

/-- If `get_snowflake_conn` returns a connection, its trace contains the
`connect` call that produced it. -/
theorem conn_ok_mem_sfConnect (sys : Sys) (wh : Warehouse) (cfg : Config) (p : ConnectParams)
    (h : (get_snowflake_conn sys wh cfg).1 = Except.ok p) :
    Event.sfConnect p ∈ (get_snowflake_conn sys wh cfg).2 := by
  unfold get_snowflake_conn at h ⊢
  by_cases h1 : (truthy cfg.keyPath && sys.pathExists (Option.getD cfg.keyPath (""))) = true
  · rw [if_pos h1] at h ⊢
    cases hc : wh.connectOk with
    | false => rw [hc] at h; simp at h
    | true =>
      rw [hc] at h
      simp only [if_pos] at h
      have : connectParams cfg
          (Auth.keyPair (sys.pemToPkcs8Der (sys.readFile (Option.getD cfg.keyPath (""))))) = p := by
        simpa using h
      rw [this]
      simp
  · rw [if_neg h1] at h ⊢
    by_cases h2 : truthy cfg.password = true
    · rw [if_pos h2] at h ⊢
      cases hc : wh.connectOk with
      | false => rw [hc] at h; simp at h
      | true =>
        rw [hc] at h
        have : connectParams cfg (Auth.password (Option.getD cfg.password (""))) = p := by
          simpa using h
        rw [this]
        simp
    · rw [if_neg h2] at h
      simp at h

/-- `insertedRows` distributes over append. -/
theorem insertedRows_append (l1 l2 : List Event) :
    insertedRows (l1 ++ l2) = insertedRows l1 ++ insertedRows l2 := by
  induction l1 with
  | nil => rfl
  | cons e es ih =>
    cases e <;> simp [insertedRows, ih]

/-- The auth trace contributes no inserted rows. -/
theorem insertedRows_conn (sys : Sys) (wh : Warehouse) (cfg : Config) :
    insertedRows (get_snowflake_conn sys wh cfg).2 = [] := by
  rcases conn_events_cases sys wh cfg with h | ⟨pr, h⟩ | ⟨path, pr, h⟩ <;>
    rw [h] <;> rfl

/-- The last element of a list extended by a singleton. -/
theorem getLast?_append_single {α : Type} (l : List α) (a : α) :
    (l ++ [a]).getLast? = some a := by
  rw [List.getLast?_append_cons]
  rfl

/-! ## Claim theorems -/

/-- C1, counterexample: with HTTP 200 and an empty record list on
attempt 1 and a one-record 200 on attempt 2, attempt 1 raises the
zero-record `ValueError`, yet the run makes a second attempt and
`fetch_crypto_data` returns successfully -- so the zero-record failure
IS retried beyond the attempt that produced it, contradicting the
claim. -/
theorem c1_counterexample :
    fetch_once cfg0 (envEmptyThenOk 1) = Except.error FetchError.emptyData ∧
    (fetch_crypto_data cfg0 envEmptyThenOk).attempts = 2 ∧
    (fetch_crypto_data cfg0 envEmptyThenOk).result = Except.ok [ra] :=
  ⟨rfl, rfl, rfl⟩

/-- C1, amended: a syntactically successful response with an empty
record list raises on the attempt that produced it, and
`fetch_crypto_data` never returns an empty batch; but tenacity's
default retry predicate retries every exception, so the zero-record
failure is retried like any other failure (up to the 5-attempt
total). -/
theorem c1_amended_empty_raises_but_is_retried (cfg : Config) (env : Nat → HttpOutcome)
    (h : fetch_once cfg (env 1) = Except.error FetchError.emptyData) :
    (∀ l, (fetch_crypto_data cfg env).result = Except.ok l → l ≠ []) ∧
    2 ≤ (fetch_crypto_data cfg env).attempts := by
  constructor
  · intro l hl
    exact (retryLoop_master cfg env 4 1).2.2.2.2.2.2 l hl
  · show 2 ≤ (retryLoop cfg env (3 + 1) 1).attempts
    rw [retryLoop_succ_err cfg env 3 1 FetchError.emptyData h]
    dsimp only
    have h1 := (retryLoop_master cfg env 3 (1 + 1)).1
    omega

theorem c1_amended_witness :
    fetch_once cfg0 (envEmptyThenOk 1) = Except.error FetchError.emptyData ∧
    2 ≤ (fetch_crypto_data cfg0 envEmptyThenOk).attempts :=
  ⟨rfl, (c1_amended_empty_raises_but_is_retried cfg0 envEmptyThenOk rfl).2⟩

/-- C2, counterexample: a run with zero credentials (no key path, no
password) on which the fetch succeeds.  The program does fail with the
configuration error and exit code 1, but its trace shows a network call
(the HTTP GET of the fetch stage) issued BEFORE that failure,
contradicting "fails ... before issuing any network call". -/
theorem c2_counterexample :
    truthy cfgNoCreds.keyPath = false ∧ truthy cfgNoCreds.password = false ∧
    (main_run sys0 wh0 cfgNoCreds envOk).1 = 1 ∧
    (main_run sys0 wh0 cfgNoCreds envOk).2 =
      [Event.httpGet (fetchRequest cfgNoCreds),
       Event.logError ("Pipeline Failed: " ++ authNoneMsg)] :=
  ⟨rfl, rfl, rfl, rfl⟩

/-- C2, amended: with zero credentials, `get_snowflake_conn` raises the
explicit configuration error before issuing any WAREHOUSE network call
(its own trace is empty, so no `connect` is attempted), and the process
exits with code 1; but the fetch stage runs first, so the program may
already have issued HTTP network calls -- the whole trace merely
contains no warehouse connect event. -/
theorem c2_amended_config_error_before_warehouse (sys : Sys) (wh : Warehouse)
    (cfg : Config) (env : Nat → HttpOutcome)
    (hk : (truthy cfg.keyPath && sys.pathExists (Option.getD cfg.keyPath (""))) = false)
    (hp : truthy cfg.password = false) :
    (get_snowflake_conn sys wh cfg).1 = Except.error authNoneMsg ∧
    (get_snowflake_conn sys wh cfg).2 = [] ∧
    (main_run sys wh cfg env).1 = 1 ∧
    (∀ e ∈ (main_run sys wh cfg env).2, Event.isSfConnect e = false) := by
  have hg : get_snowflake_conn sys wh cfg = (Except.error authNoneMsg, []) := by
    unfold get_snowflake_conn
    rw [hk]
    simp only [Bool.false_eq_true, if_false]
    rw [hp]
    simp only [Bool.false_eq_true, if_false]
  have hnosf := (retryLoop_master cfg env 4 1).2.2.2.2.2.1
  have hl : ∀ data, load_to_snowflake sys wh cfg data = (Except.error authNoneMsg, []) := by
    intro data
    unfold load_to_snowflake
    rw [hg]
  refine ⟨by rw [hg], by rw [hg], ?_, ?_⟩
  · unfold main_run
    cases hr : (fetch_crypto_data cfg env).result with
    | error e => rfl
    | ok data =>
      dsimp only
      rw [hl data]
  · intro ev hev
    unfold main_run at hev
    cases hr : (fetch_crypto_data cfg env).result with
    | error e =>
      rw [hr] at hev
      dsimp only at hev
      rw [List.mem_append] at hev
      rcases hev with hev | hev
      · exact hnosf ev hev
      · rw [List.mem_singleton] at hev
        rw [hev]
        rfl
    | ok data =>
      rw [hr] at hev
      dsimp only at hev
      rw [hl data] at hev
      dsimp only at hev
      rw [List.mem_append] at hev
      rcases hev with hev | hev
      · rw [List.mem_append] at hev
        rcases hev with hev | hev
        · exact hnosf ev hev
        · simp at hev
      · rw [List.mem_singleton] at hev
        rw [hev]
        rfl

theorem c2_amended_witness :
    (truthy cfgNoCreds.keyPath && sys0.pathExists (Option.getD cfgNoCreds.keyPath (""))) = false ∧
    truthy cfgNoCreds.password = false ∧
    (get_snowflake_conn sys0 wh0 cfgNoCreds).1 = Except.error authNoneMsg ∧
    (main_run sys0 wh0 cfgNoCreds envOk).1 = 1 :=
  ⟨rfl, rfl,
   (c2_amended_config_error_before_warehouse sys0 wh0 cfgNoCreds envOk rfl rfl).1,
   (c2_amended_config_error_before_warehouse sys0 wh0 cfgNoCreds envOk rfl rfl).2.2.1⟩

/-- `load_to_snowflake` on a connected run with no warehouse failure. -/
theorem load_ok_unfold (sys : Sys) (wh : Warehouse) (cfg : Config)
    (data : List MarketRecord) (p : ConnectParams)
    (hconn : (get_snowflake_conn sys wh cfg).1 = Except.ok p)
    (hcr : wh.createOk = true) (hins : wh.insertOk = true) (hcm : wh.commitOk = true) :
    load_to_snowflake sys wh cfg data =
      (Except.ok (), (get_snowflake_conn sys wh cfg).2 ++
        [Event.sqlExecute (createTableSql cfg),
         Event.sqlExecuteMany (insertSql cfg) (data.map dumps),
         Event.commit, Event.cursorClose, Event.connClose]) := by
  unfold load_to_snowflake
  rw [hconn]
  dsimp only
  rw [hcr, hins, hcm]
  rfl

/-- `load_to_snowflake` on a connected run where exactly the insert
raises. -/
theorem load_insert_fail_unfold (sys : Sys) (wh : Warehouse) (cfg : Config)
    (data : List MarketRecord) (p : ConnectParams)
    (hconn : (get_snowflake_conn sys wh cfg).1 = Except.ok p)
    (hcr : wh.createOk = true) (hins : wh.insertOk = false) :
    load_to_snowflake sys wh cfg data =
      (Except.error insertFailMsg, (get_snowflake_conn sys wh cfg).2 ++
        [Event.sqlExecute (createTableSql cfg),
         Event.sqlExecuteMany (insertSql cfg) (data.map dumps),
         Event.cursorClose, Event.connClose]) := by
  unfold load_to_snowflake
  rw [hconn]
  dsimp only
  rw [hcr, hins]
  rfl

/-- Per-predicate counts and the `executemany` filter of the
`get_snowflake_conn` trace: it holds no SQL, commit or close events. -/
theorem conn_events_counts (sys : Sys) (wh : Warehouse) (cfg : Config) :
    (get_snowflake_conn sys wh cfg).2.countP Event.isExecute = 0 ∧
    (get_snowflake_conn sys wh cfg).2.countP Event.isExecuteMany = 0 ∧
    (get_snowflake_conn sys wh cfg).2.countP Event.isCommit = 0 ∧
    (get_snowflake_conn sys wh cfg).2.countP Event.isCursorClose = 0 ∧
    (get_snowflake_conn sys wh cfg).2.countP Event.isConnClose = 0 ∧
    (get_snowflake_conn sys wh cfg).2.filter Event.isExecuteMany = [] := by
  rcases conn_events_cases sys wh cfg with h | ⟨pr, h⟩ | ⟨path, pr, h⟩ <;> rw [h] <;>
    exact ⟨rfl, rfl, rfl, rfl, rfl, rfl⟩

/-- C3: `get_snowflake_conn` selects exactly one authentication mode by
priority.  If the key path is truthy and the file exists, the key file
is read, PEM-decoded to PKCS8-DER, and key-pair authentication is used;
else if the password is truthy, password authentication is used; else
it raises the configuration `ValueError` without any side effect. -/
theorem c3_auth_priority (sys : Sys) (wh : Warehouse) (cfg : Config) :
    ((truthy cfg.keyPath && sys.pathExists (Option.getD cfg.keyPath (""))) = true →
      get_snowflake_conn sys wh cfg =
        ((if wh.connectOk then
            Except.ok (connectParams cfg
              (Auth.keyPair (sys.pemToPkcs8Der (sys.readFile (Option.getD cfg.keyPath (""))))))
          else Except.error connectFailMsg),
         [Event.fileRead (Option.getD cfg.keyPath ("")),
          Event.sfConnect (connectParams cfg
            (Auth.keyPair (sys.pemToPkcs8Der (sys.readFile (Option.getD cfg.keyPath (""))))))])) ∧
    ((truthy cfg.keyPath && sys.pathExists (Option.getD cfg.keyPath (""))) = false →
      truthy cfg.password = true →
      get_snowflake_conn sys wh cfg =
        ((if wh.connectOk then
            Except.ok (connectParams cfg (Auth.password (Option.getD cfg.password (""))))
          else Except.error connectFailMsg),
         [Event.sfConnect (connectParams cfg (Auth.password (Option.getD cfg.password (""))))])) ∧
    ((truthy cfg.keyPath && sys.pathExists (Option.getD cfg.keyPath (""))) = false →
      truthy cfg.password = false →
      get_snowflake_conn sys wh cfg = (Except.error authNoneMsg, [])) := by
  refine ⟨?_, ?_, ?_⟩
  · intro h
    unfold get_snowflake_conn
    rw [h]
    rfl
  · intro h1 h2
    unfold get_snowflake_conn
    rw [h1]
    simp only [Bool.false_eq_true, if_false]
    rw [h2]
    rfl
  · intro h1 h2
    unfold get_snowflake_conn
    rw [h1]
    simp only [Bool.false_eq_true, if_false]
    rw [h2]
    rfl

/-- C4: at most 5 attempts; the waits between consecutive attempts are
non-decreasing, start at 2 and are capped at 10; the wait after the
`(k+1)`-st attempt is the clamp of the doubling exponential `2 ^ k`
into `[2, 10]` (this is the literal tenacity
`wait_exponential(multiplier=1, min=2, max=10)` value, so "doubling"
holds of the exponential term before clamping: within 5 attempts the
wait sequence is a prefix of `2, 2, 4, 8`). -/
theorem c4_retry_policy (cfg : Config) (env : Nat → HttpOutcome) :
    (fetch_crypto_data cfg env).attempts ≤ 5 ∧
    List.Chain' (fun a b => a ≤ b) (fetch_crypto_data cfg env).waits ∧
    (∀ w ∈ (fetch_crypto_data cfg env).waits, w ≤ 10) ∧
    ((fetch_crypto_data cfg env).waits.head? = none ∨
      (fetch_crypto_data cfg env).waits.head? = some 2) ∧
    (fetch_crypto_data cfg env).waits =
      (List.range ((fetch_crypto_data cfg env).attempts - 1)).map
        (fun i => waitExponential 1 2 10 (i + 1)) ∧
    (∀ k, waitExponential 1 2 10 (k + 1) = max 2 (min (2 ^ k) 10)) ∧
    (∀ k, waitExponential 1 2 10 (k + 2) = max 2 (min (2 * 2 ^ k) 10)) := by
  unfold fetch_crypto_data
  obtain ⟨h1, h2, h3, h4, h5, h6, h7⟩ := retryLoop_master cfg env 4 1
  have hformula : (retryLoop cfg env 4 1).waits =
      (List.range ((retryLoop cfg env 4 1).attempts - 1)).map
        (fun i => waitExponential 1 2 10 (i + 1)) := by
    rw [h3]
    apply List.map_congr_left
    intro i _
    congr 1
    omega
  refine ⟨by omega, ?_, ?_, ?_, hformula, ?_, ?_⟩
  · rw [hformula]
    exact chain'_le_map_range _ (fun i => waitExponential_mono _ _ (by omega)) _
  · rw [hformula]
    intro w hw
    rw [List.mem_map] at hw
    obtain ⟨i, _, rfl⟩ := hw
    exact waitExponential_le_ten _
  · rw [hformula]
    cases hc : (retryLoop cfg env 4 1).attempts - 1 with
    | zero => exact Or.inl rfl
    | succ m =>
      refine Or.inr ?_
      rw [List.range_succ_eq_map]
      rfl
  · intro k
    unfold waitExponential
    rw [show k + 1 - 1 = k from rfl, one_mul, Nat.zero_max]
  · intro k
    unfold waitExponential
    have hx : 1 * 2 ^ (k + 2 - 1) = 2 * 2 ^ k := by
      rw [show k + 2 - 1 = k + 1 from rfl, one_mul, pow_succ, Nat.mul_comm]
    rw [hx, Nat.zero_max]

/-- C9: every attempt issues one GET with the canonical request (the
fixed query parameters, the API-key header iff `API_KEY` is truthy, and
`timeout=10`); the number of GET events equals the number of attempts;
and a timeout on an attempt is a failed attempt that is retried. -/
theorem c9_request_contract (cfg : Config) (env : Nat → HttpOutcome) :
    (fetchRequest cfg).url = cfg.apiUrl ∧
    (fetchRequest cfg).vs_currency = "usd" ∧
    (fetchRequest cfg).order = "market_cap_desc" ∧
    (fetchRequest cfg).per_page = cfg.apiLimit ∧
    (fetchRequest cfg).page = 1 ∧
    (fetchRequest cfg).sparkline = "false" ∧
    (fetchRequest cfg).timeout = 10 ∧
    ((∃ k, ("x-cg-demo-api-key", k) ∈ (fetchRequest cfg).headers) ↔
      truthy cfg.apiKey = true) ∧
    (fetch_crypto_data cfg env).events.countP Event.isHttpGet =
      (fetch_crypto_data cfg env).attempts ∧
    (∀ e ∈ (fetch_crypto_data cfg env).events,
      Event.isHttpGet e = true → e = Event.httpGet (fetchRequest cfg)) ∧
    (env 1 = HttpOutcome.timeout → 2 ≤ (fetch_crypto_data cfg env).attempts) := by
  obtain ⟨h1, h2, h3, h4, h5, h6, h7⟩ := retryLoop_master cfg env 4 1
  refine ⟨rfl, rfl, rfl, rfl, rfl, rfl, rfl, ?_, h4, h5, ?_⟩
  · constructor
    · rintro ⟨k, hk⟩
      cases htr : truthy cfg.apiKey with
      | true => rfl
      | false =>
        exfalso
        unfold fetchRequest at hk
        rw [htr] at hk
        dsimp only at hk
        simp at hk
    · intro ht
      refine ⟨Option.getD cfg.apiKey (""), ?_⟩
      unfold fetchRequest
      rw [ht]
      simp
  · intro h
    have hf : fetch_once cfg (env 1) = Except.error FetchError.timedOut := by
      rw [h]
      rfl
    show 2 ≤ (retryLoop cfg env (3 + 1) 1).attempts
    rw [retryLoop_succ_err cfg env 3 1 FetchError.timedOut hf]
    dsimp only
    have hq := (retryLoop_master cfg env 3 (1 + 1)).1
    omega

/-- `load_to_snowflake` on a connected run where exactly the commit
raises (the commit call is issued, then fails). -/
theorem load_commit_fail_unfold (sys : Sys) (wh : Warehouse) (cfg : Config)
    (data : List MarketRecord) (p : ConnectParams)
    (hconn : (get_snowflake_conn sys wh cfg).1 = Except.ok p)
    (hcr : wh.createOk = true) (hins : wh.insertOk = true) (hcm : wh.commitOk = false) :
    load_to_snowflake sys wh cfg data =
      (Except.error commitFailMsg, (get_snowflake_conn sys wh cfg).2 ++
        [Event.sqlExecute (createTableSql cfg),
         Event.sqlExecuteMany (insertSql cfg) (data.map dumps),
         Event.commit, Event.cursorClose, Event.connClose]) := by
  unfold load_to_snowflake
  rw [hconn]
  dsimp only
  rw [hcr, hins, hcm]
  rfl

/-- C5: on a connected run with no failure, the loader issues exactly
one CREATE TABLE, then exactly one multi-row insert whose rows are the
JSON serializations of all N records in order, then exactly one commit,
and succeeds. -/
theorem c5_loader_single_batch (sys : Sys) (wh : Warehouse) (cfg : Config)
    (data : List MarketRecord) (p : ConnectParams)
    (hconn : (get_snowflake_conn sys wh cfg).1 = Except.ok p)
    (hcr : wh.createOk = true) (hins : wh.insertOk = true) (hcm : wh.commitOk = true) :
    (load_to_snowflake sys wh cfg data).1 = Except.ok () ∧
    (load_to_snowflake sys wh cfg data).2 =
      (get_snowflake_conn sys wh cfg).2 ++
        [Event.sqlExecute (createTableSql cfg),
         Event.sqlExecuteMany (insertSql cfg) (data.map dumps),
         Event.commit, Event.cursorClose, Event.connClose] ∧
    (load_to_snowflake sys wh cfg data).2.countP Event.isExecute = 1 ∧
    (load_to_snowflake sys wh cfg data).2.countP Event.isExecuteMany = 1 ∧
    (load_to_snowflake sys wh cfg data).2.countP Event.isCommit = 1 ∧
    (load_to_snowflake sys wh cfg data).2.filter Event.isExecuteMany =
      [Event.sqlExecuteMany (insertSql cfg) (data.map dumps)] ∧
    (data.map dumps).length = data.length := by
  obtain ⟨c1, c2, c3, c4, c5, cf⟩ := conn_events_counts sys wh cfg
  have hload := load_ok_unfold sys wh cfg data p hconn hcr hins hcm
  rw [hload]
  dsimp only
  refine ⟨rfl, rfl, ?_, ?_, ?_, ?_, by simp⟩
  · rw [List.countP_append, c1]
    rfl
  · rw [List.countP_append, c2]
    rfl
  · rw [List.countP_append, c3]
    rfl
  · rw [List.filter_append, cf]
    rfl

theorem c5_witness :
    (get_snowflake_conn sys0 wh0 cfg0).1 = Except.ok p0 ∧
    (load_to_snowflake sys0 wh0 cfg0 [ra, rb]).1 = Except.ok () ∧
    (load_to_snowflake sys0 wh0 cfg0 [ra, rb]).2.countP Event.isExecuteMany = 1 :=
  ⟨rfl,
   (c5_loader_single_batch sys0 wh0 cfg0 [ra, rb] p0 rfl rfl rfl rfl).1,
   (c5_loader_single_batch sys0 wh0 cfg0 [ra, rb] p0 rfl rfl rfl rfl).2.2.2.1⟩

/-- C6: on a connected run past the CREATE TABLE, the cursor and the
connection are each released exactly once whatever the insert and
commit do (the `finally` block), and when the insert raises the load
fails with that error and no commit is issued. -/
theorem c6_release_on_insert_failure (sys : Sys) (wh : Warehouse) (cfg : Config)
    (data : List MarketRecord) (p : ConnectParams)
    (hconn : (get_snowflake_conn sys wh cfg).1 = Except.ok p)
    (hcr : wh.createOk = true) :
    ((load_to_snowflake sys wh cfg data).2.countP Event.isCursorClose = 1 ∧
     (load_to_snowflake sys wh cfg data).2.countP Event.isConnClose = 1) ∧
    (wh.insertOk = false →
      (load_to_snowflake sys wh cfg data).1 = Except.error insertFailMsg ∧
      (load_to_snowflake sys wh cfg data).2.countP Event.isCommit = 0) := by
  obtain ⟨c1, c2, c3, c4, c5, cf⟩ := conn_events_counts sys wh cfg
  cases hins : wh.insertOk with
  | true =>
    cases hcm : wh.commitOk with
    | true =>
      have hload := load_ok_unfold sys wh cfg data p hconn hcr hins hcm
      rw [hload]
      dsimp only
      refine ⟨⟨?_, ?_⟩, ?_⟩
      · rw [List.countP_append, c4]
        rfl
      · rw [List.countP_append, c5]
        rfl
      · intro hfalse
        exact absurd hfalse (by simp)
    | false =>
      have hload := load_commit_fail_unfold sys wh cfg data p hconn hcr hins hcm
      rw [hload]
      dsimp only
      refine ⟨⟨?_, ?_⟩, ?_⟩
      · rw [List.countP_append, c4]
        rfl
      · rw [List.countP_append, c5]
        rfl
      · intro hfalse
        exact absurd hfalse (by simp)
  | false =>
    have hload := load_insert_fail_unfold sys wh cfg data p hconn hcr hins
    rw [hload]
    dsimp only
    refine ⟨⟨?_, ?_⟩, ?_⟩
    · rw [List.countP_append, c4]
      rfl
    · rw [List.countP_append, c5]
      rfl
    · intro _
      refine ⟨rfl, ?_⟩
      rw [List.countP_append, c3]
      rfl

theorem c6_witness :
    (get_snowflake_conn sys0 whInsertFail cfg0).1 = Except.ok p0 ∧
    whInsertFail.insertOk = false ∧
    (load_to_snowflake sys0 whInsertFail cfg0 [ra]).1 = Except.error insertFailMsg ∧
    (load_to_snowflake sys0 whInsertFail cfg0 [ra]).2.countP Event.isCommit = 0 ∧
    (load_to_snowflake sys0 whInsertFail cfg0 [ra]).2.countP Event.isCursorClose = 1 :=
  ⟨rfl, rfl,
   ((c6_release_on_insert_failure sys0 whInsertFail cfg0 [ra] p0 rfl rfl).2 rfl).1,
   ((c6_release_on_insert_failure sys0 whInsertFail cfg0 [ra] p0 rfl rfl).2 rfl).2,
   (c6_release_on_insert_failure sys0 whInsertFail cfg0 [ra] p0 rfl rfl).1.1⟩

/-- C7: HTTP 500 on the first two attempts and 200 with 2 records on
the third: exactly 3 fetch attempts; the run succeeds (exit code 0) and
persists exactly the 2 records, in one committed multi-row insert. -/
theorem c7_end_to_end :
    (fetch_crypto_data cfg0 env500x2).attempts = 3 ∧
    (fetch_crypto_data cfg0 env500x2).result = Except.ok [ra, rb] ∧
    (main_run sys0 wh0 cfg0 env500x2).1 = 0 ∧
    (main_run sys0 wh0 cfg0 env500x2).2.countP Event.isExecuteMany = 1 ∧
    insertedRows (main_run sys0 wh0 cfg0 env500x2).2 = [dumps ra, dumps rb] ∧
    (main_run sys0 wh0 cfg0 env500x2).2.countP Event.isCommit = 1 :=
  ⟨rfl, rfl, rfl, rfl, rfl, rfl⟩

/-- C8: exit code 0 when the fetch and the load both succeed; exit
code 1, with the last trace event a logged error message, when either
step raises. -/
theorem c8_exit_codes (sys : Sys) (wh : Warehouse) (cfg : Config) (env : Nat → HttpOutcome) :
    ((∃ d, (fetch_crypto_data cfg env).result = Except.ok d ∧
        (load_to_snowflake sys wh cfg d).1 = Except.ok ()) →
      (main_run sys wh cfg env).1 = 0) ∧
    ((∃ e, (fetch_crypto_data cfg env).result = Except.error e) →
      (main_run sys wh cfg env).1 = 1 ∧
      (∃ m, (main_run sys wh cfg env).2.getLast? = some (Event.logError m))) ∧
    ((∃ d e, (fetch_crypto_data cfg env).result = Except.ok d ∧
        (load_to_snowflake sys wh cfg d).1 = Except.error e) →
      (main_run sys wh cfg env).1 = 1 ∧
      (∃ m, (main_run sys wh cfg env).2.getLast? = some (Event.logError m))) := by
  refine ⟨?_, ?_, ?_⟩
  · rintro ⟨d, hd, hl⟩
    unfold main_run
    rw [hd]
    dsimp only
    rcases hp : load_to_snowflake sys wh cfg d with ⟨r, evs⟩
    rw [hp] at hl
    dsimp only at hl
    subst hl
    rfl
  · rintro ⟨e, he⟩
    unfold main_run
    rw [he]
    dsimp only
    exact ⟨rfl, ⟨_, getLast?_append_single _ _⟩⟩
  · rintro ⟨d, e, hd, hl⟩
    unfold main_run
    rw [hd]
    dsimp only
    rcases hp : load_to_snowflake sys wh cfg d with ⟨r, evs⟩
    rw [hp] at hl
    dsimp only at hl
    subst hl
    dsimp only
    exact ⟨rfl, ⟨_, getLast?_append_single _ _⟩⟩

/-- C10: called directly with the empty batch, the loader does not
short-circuit: it opens the connection, issues the CREATE TABLE, a
zero-row `executemany`, the commit, and the releases; and for every
batch the inserted rows are the records' serializations in batch
order. -/
theorem c10_empty_batch_and_order (sys : Sys) (wh : Warehouse) (cfg : Config)
    (p : ConnectParams)
    (hconn : (get_snowflake_conn sys wh cfg).1 = Except.ok p)
    (hcr : wh.createOk = true) (hins : wh.insertOk = true) (hcm : wh.commitOk = true) :
    (load_to_snowflake sys wh cfg []).1 = Except.ok () ∧
    (load_to_snowflake sys wh cfg []).2 =
      (get_snowflake_conn sys wh cfg).2 ++
        [Event.sqlExecute (createTableSql cfg),
         Event.sqlExecuteMany (insertSql cfg) [],
         Event.commit, Event.cursorClose, Event.connClose] ∧
    Event.sfConnect p ∈ (load_to_snowflake sys wh cfg []).2 ∧
    (∀ data : List MarketRecord,
      insertedRows (load_to_snowflake sys wh cfg data).2 = data.map dumps) := by
  have hload := load_ok_unfold sys wh cfg [] p hconn hcr hins hcm
  refine ⟨by rw [hload], by rw [hload]; rfl, ?_, ?_⟩
  · rw [hload]
    dsimp only
    rw [List.mem_append]
    exact Or.inl (conn_ok_mem_sfConnect sys wh cfg p hconn)
  · intro data
    have hl2 := load_ok_unfold sys wh cfg data p hconn hcr hins hcm
    rw [hl2]
    dsimp only
    rw [insertedRows_append, insertedRows_conn]
    simp [insertedRows]

theorem c10_witness :
    (get_snowflake_conn sys0 wh0 cfg0).1 = Except.ok p0 ∧
    (load_to_snowflake sys0 wh0 cfg0 []).1 = Except.ok () ∧
    insertedRows (load_to_snowflake sys0 wh0 cfg0 [rb, ra]).2 = [dumps rb, dumps ra] :=
  ⟨rfl,
   (c10_empty_batch_and_order sys0 wh0 cfg0 p0 rfl rfl rfl rfl).1,
   (c10_empty_batch_and_order sys0 wh0 cfg0 p0 rfl rfl rfl rfl).2.2.2 [rb, ra]⟩
